import Mathlib

/-!
Verification of the authentication backend (Express + Mongoose, `src/backend`).

The development shallowly embeds the data model (`models/User.js`), the four
route handlers of `server.js` (signup, login, the Google OAuth strategy
callback, and the protected profile lookup), and the external collaborators at
their interface boundary (the bcryptjs hasher and the jsonwebtoken service,
modelled from the spec as an opaque one-way hash and a symbolically signed
claim set).  The store is a list of user records with a uniqueness constraint
on email, mirroring the Mongoose schema's unique index.
-/

namespace Oauth

/-- The `authMethod` enum of `models/User.js`: `enum: ['password', 'google']`. -/
inductive AuthMethod
  | password
  | google
deriving DecidableEq, Repr

/-- A user document of `models/User.js`.  `password` holds the bcrypt hash when
present; `googleId` is the linked external identity, absent when never linked.
The `id` is the store-assigned `_id`. -/
structure User where
  id : Nat
  name : String
  email : String
  password : Option String
  googleId : Option String
  authMethod : AuthMethod
deriving DecidableEq, Repr

/-- The credential store: the users collection plus the id counter the store
uses to assign `_id`s on creation. -/
structure Store where
  users : List User
  nextId : Nat
deriving DecidableEq, Repr

def emptyStore : Store := { users := [], nextId := 0 }

/-- `User.findOne({ email })`. -/
def findByEmail (db : Store) (e : String) : Option User :=
  db.users.find? (fun u => u.email == e)

/-- `User.findById(id)`. -/
def findById (db : Store) (i : Nat) : Option User :=
  db.users.find? (fun u => u.id == i)

/-- The distinguishable uniqueness-violation signal of the store (the Mongo
duplicate-key error raised by the unique index on `email`). -/
inductive StoreError
  | dupKey
deriving DecidableEq, Repr

/-- `new User({...}); user.save()`: insertion of a fresh document.  The unique
index on `email` (`models/User.js`) makes the save of a duplicate email fail
with the duplicate-key signal. -/
def saveNew (db : Store) (u : User) : Except StoreError Store :=
  if db.users.any (fun v => v.email == u.email) then .error .dupKey
  else .ok { users := db.users ++ [u], nextId := db.nextId + 1 }

/-- `user.save()` on an already-stored document: in-place update keyed by id. -/
def saveExisting (db : Store) (u : User) : Store :=
  { db with users := db.users.map (fun v => if v.id = u.id then u else v) }

/-- JavaScript truthiness of an optional string field, as used by
`if (!user.googleId)`: absent and empty are falsy. -/
def isFalsyStr : Option String → Bool
  | none => true
  | some s => s == ""

/-- Modelled from the spec: the Password Hasher collaborator (`bcryptjs`),
an opaque one-way `hash(plain)` modelled as an injective tagging function. -/
def bcryptHash (plain : String) : String := "bcrypt$10$" ++ plain

/-- Modelled from the spec: `bcrypt.compare(plain, stored)` verifies by
recomputing the hash. -/
def bcryptCompare (plain stored : String) : Bool := stored == bcryptHash plain

/-- Modelled from the spec: the signature part of a signed token, a MAC over
the secret and the claims.  The symbolic model keeps the signed-over content
so that verification is exactly recomputation-and-compare. -/
structure JwtSig where
  secret : String
  sub : Nat
  iat : Nat
  exp : Nat
deriving DecidableEq, Repr

def jwtSig (secret : String) (sub iat exp : Nat) : JwtSig :=
  { secret := secret, sub := sub, iat := iat, exp := exp }

/-- The fixed token TTL: `expiresIn: '1h'` in seconds. -/
def hourSeconds : Nat := 3600

/-- A decoded token: subject claim, timestamps, signature. -/
structure TokenData where
  subjectId : Nat
  issuedAt : Nat
  expiresAt : Nat
  sig : JwtSig
deriving DecidableEq, Repr

/-- `jwt.sign({ id }, JWT_SECRET, { expiresIn: '1h' })` at time `now`. -/
def jwtSign (secret : String) (sub now : Nat) : TokenData :=
  { subjectId := sub, issuedAt := now, expiresAt := now + hourSeconds,
    sig := jwtSig secret sub now (now + hourSeconds) }

inductive VerifyResult
  | malformed
  | expired
  | ok (sub : Nat)
deriving DecidableEq, Repr

/-- Modelled from the spec: `Verify(token)` of the Token Service
(`jwt.verify`, exercised by the auth middleware, which is not under
`src/`).  An unparseable presentation is `none`; a parsed token is checked
signature first, then expiry (`now > expiresAt`), else the subject is
returned. -/
def jwtVerify (secret : String) (now : Nat) (t? : Option TokenData) : VerifyResult :=
  match t? with
  | none => .malformed
  | some t =>
    if t.sig = jwtSig secret t.subjectId t.issuedAt t.expiresAt then
      if t.expiresAt < now then .expired else .ok t.subjectId
    else .malformed

/-! Response messages, verbatim from `server.js`. -/

def googleConflictSignupMsg : String :=
  "This email is registered with Google authentication. Please log in using Google."

def duplicateEmailMsg : String :=
  "Email already in use. Try logging in or use a different email."

def invalidCredentialsMsg : String := "Invalid credentials"

def googleConflictLoginMsg : String :=
  "This account is registered with Google authentication. Please log in using Google."

def passwordConflictReconcileMsg : String :=
  "This email is registered with password authentication. Please log in using the password method."

def serverErrorMsg : String := "Server error"

def notFoundMsg : String := "User not found"

/-- The `user` object of a 200 response of signup and login:
`{ id, name, email }` and nothing else. -/
structure UserView where
  id : Nat
  name : String
  email : String
deriving DecidableEq, Repr

/-- Outcome of the signup and login handlers: `200 {token, user}`,
`400 {msg}`, or `500 {msg}`. -/
inductive AuthResult
  | ok (token : TokenData) (user : UserView)
  | badRequest (msg : String)
  | serverError (msg : String)
deriving DecidableEq, Repr

/-- The document built by `new User({ name, email, password: hashedPassword,
authMethod: 'password' })` in the signup handler. -/
def newPasswordUser (db : Store) (n e pw : String) : User :=
  { id := db.nextId, name := n, email := e,
    password := some (bcryptHash pw), googleId := none, authMethod := .password }

/-- The signup handler of `server.js`, with the store as observed at the
`findOne` await and at the `save` await given separately: the handler awaits
between the two, so a concurrent writer may commit in between.  Any error the
save raises is absorbed by the catch-all into `500 'Server error'`. -/
def signupInterleaved (secret : String) (now : Nat) (dbLookup dbSave : Store)
    (n e pw : String) : Store × AuthResult :=
  match findByEmail dbLookup e with
  | some u =>
    if u.authMethod = .google then (dbSave, .badRequest googleConflictSignupMsg)
    else (dbSave, .badRequest duplicateEmailMsg)
  | none =>
    let u := newPasswordUser dbSave n e pw
    match saveNew dbSave u with
    | .error _ => (dbSave, .serverError serverErrorMsg)
    | .ok db2 =>
      (db2, .ok (jwtSign secret u.id now) { id := u.id, name := n, email := e })

/-- `POST /signup` in a run with no interleaved writer. -/
def signup (secret : String) (now : Nat) (db : Store) (n e pw : String) :
    Store × AuthResult :=
  signupInterleaved secret now db db n e pw

/-- `POST /login`.  The handler never writes to the store. -/
def login (secret : String) (now : Nat) (db : Store) (e pw : String) : AuthResult :=
  match findByEmail db e with
  | none => .badRequest invalidCredentialsMsg
  | some u =>
    if u.authMethod = .google then .badRequest googleConflictLoginMsg
    else
      match u.password with
      | none => .serverError serverErrorMsg
      | some stored =>
        if bcryptCompare pw stored then
          .ok (jwtSign secret u.id now) { id := u.id, name := u.name, email := e }
        else .badRequest invalidCredentialsMsg

/-- Outcome of the Google strategy callback: `done(null, {user, token})`,
`done(null, {user: null, msg})`, or `done(err, null)`. -/
inductive ReconcileResult
  | ok (user : User) (token : TokenData)
  | conflict (msg : String)
  | err
deriving DecidableEq, Repr

/-- The document built by `new User({ googleId, email, name, authMethod:
'google' })` in the strategy callback. -/
def newGoogleUser (db : Store) (eid e dn : String) : User :=
  { id := db.nextId, name := dn, email := e,
    password := none, googleId := some eid, authMethod := .google }

/-- The Google OAuth strategy callback of `server.js`: look the profile email
up; a password-method record is a method conflict returned as data; a google
record without a truthy `googleId` gets the asserted id attached; otherwise
the record is used as is; an unseen email gets a fresh google-method record.
On every proceed path a 1h token is signed for the resolved record's id. -/
def reconcile (secret : String) (now : Nat) (db : Store)
    (eid e dn : String) : Store × ReconcileResult :=
  match findByEmail db e with
  | some u =>
    if u.authMethod = .password then (db, .conflict passwordConflictReconcileMsg)
    else if isFalsyStr u.googleId then
      let u2 := { u with googleId := some eid }
      (saveExisting db u2, .ok u2 (jwtSign secret u2.id now))
    else (db, .ok u (jwtSign secret u.id now))
  | none =>
    let u := newGoogleUser db eid e dn
    match saveNew db u with
    | .error _ => (db, .err)
    | .ok db2 => (db2, .ok u (jwtSign secret u.id now))

/-- The user record as serialized by `GET /profile`: `.select('-password')`,
every field but the password hash. -/
structure ProfileView where
  id : Nat
  name : String
  email : String
  googleId : Option String
  authMethod : AuthMethod
deriving DecidableEq, Repr

def stripPassword (u : User) : ProfileView :=
  { id := u.id, name := u.name, email := u.email,
    googleId := u.googleId, authMethod := u.authMethod }

inductive ProfileResult
  | ok (user : ProfileView)
  | notFound (msg : String)
deriving DecidableEq, Repr

/-- The `GET /profile` handler body, given the subject id the auth gateway
resolved from the bearer token. -/
def profile (db : Store) (subjectId : Nat) : ProfileResult :=
  match findById db subjectId with
  | none => .notFound notFoundMsg
  | some u => .ok (stripPassword u)

/-- `true` exactly on the token-issuing outcome of the strategy callback. -/
def reconcileIssuedToken : ReconcileResult → Bool
  | .ok _ _ => true
  | _ => false

/-- `true` exactly on the token-issuing outcome of signup and login. -/
def authIssuedToken : AuthResult → Bool
  | .ok _ _ => true
  | _ => false

/-! Helper lemmas. -/

theorem findByEmail_none_any_false (db : Store) (e : String)
    (h : findByEmail db e = none) :
    (db.users.any (fun v => v.email == e)) = false := by
  simp only [findByEmail, List.find?_eq_none] at h
  simp only [List.any_eq_false]
  exact h

theorem isFalsyStr_some_false (s : String) (h : s ≠ "") :
    isFalsyStr (some s) = false := by
  simp [isFalsyStr, h]

/-- Signup on an email held by a google-method record: 400, method conflict. -/
theorem signup_found_google_eq (secret : String) (now : Nat) (db : Store)
    (n e pw : String) (u : User)
    (h : findByEmail db e = some u) (hg : u.authMethod = .google) :
    signup secret now db n e pw = (db, .badRequest googleConflictSignupMsg) := by
  simp [signup, signupInterleaved, h, hg]

/-- Signup on an email held by a password-method record: 400, duplicate. -/
theorem signup_found_password_eq (secret : String) (now : Nat) (db : Store)
    (n e pw : String) (u : User)
    (h : findByEmail db e = some u) (hp : u.authMethod = .password) :
    signup secret now db n e pw = (db, .badRequest duplicateEmailMsg) := by
  simp [signup, signupInterleaved, h, hp]

/-- Signup on an unseen email: a fresh password-method record is appended and
a token for its id is returned. -/
theorem signup_not_found_eq (secret : String) (now : Nat) (db : Store)
    (n e pw : String) (h : findByEmail db e = none) :
    signup secret now db n e pw =
      ({ users := db.users ++ [newPasswordUser db n e pw], nextId := db.nextId + 1 },
       .ok (jwtSign secret db.nextId now) { id := db.nextId, name := n, email := e }) := by
  simp [signup, signupInterleaved, h, saveNew, newPasswordUser,
    findByEmail_none_any_false db e h]

/-! Concrete fixtures used by the witnesses. -/

/-- A password-method user as created by signup with password `pw`. -/
def userA : User :=
  { id := 0, name := "A", email := "a@x", password := some (bcryptHash "pw"),
    googleId := none, authMethod := .password }

/-- A google-method user with a linked external id. -/
def userB : User :=
  { id := 1, name := "B", email := "b@x", password := none,
    googleId := some "g1", authMethod := .google }

def dbW : Store := { users := [userA, userB], nextId := 2 }

/-! Claim theorems. -/

/-- C1: the stored record's `authMethod` is the sole discriminator of which
login path may succeed for its email: when the email resolves to a
password-method record the Google strategy callback never issues a token,
and when it resolves to a google-method record the local login never issues
a token, whatever credentials are supplied. -/
theorem authMethod_sole_discriminator (secret : String) (now : Nat) (db : Store)
    (eid e dn pw : String) (u : User) (h : findByEmail db e = some u) :
    (u.authMethod = .password →
      reconcileIssuedToken (reconcile secret now db eid e dn).2 = false) ∧
    (u.authMethod = .google →
      authIssuedToken (login secret now db e pw) = false) := by
  constructor
  · intro hp
    simp [reconcile, h, hp, reconcileIssuedToken]
  · intro hg
    simp [login, h, hg, authIssuedToken]

theorem authMethod_sole_discriminator_witness :
    reconcileIssuedToken (reconcile "s" 0 dbW "gid" "a@x" "N").2 = false ∧
    authIssuedToken (login "s" 0 dbW "b@x" "pw") = false :=
  ⟨(authMethod_sole_discriminator "s" 0 dbW "gid" "a@x" "N" "pw" userA rfl).1 rfl,
   (authMethod_sole_discriminator "s" 0 dbW "gid" "b@x" "N" "pw" userB rfl).2 rfl⟩

/-- C2: signup looks the email up and: a google-method record is refused with
the method-conflict message, a password-method record with the duplicate-email
message (store untouched in both cases); an unseen email gets a fresh
password-method record with the hashed password appended to the store, and a
token whose subject is the new record's id. -/
theorem signup_case_analysis (secret : String) (now : Nat) (db : Store)
    (n e pw : String) :
    (∀ u, findByEmail db e = some u → u.authMethod = .google →
      signup secret now db n e pw = (db, .badRequest googleConflictSignupMsg)) ∧
    (∀ u, findByEmail db e = some u → u.authMethod = .password →
      signup secret now db n e pw = (db, .badRequest duplicateEmailMsg)) ∧
    (findByEmail db e = none →
      signup secret now db n e pw =
        ({ users := db.users ++ [newPasswordUser db n e pw], nextId := db.nextId + 1 },
         .ok (jwtSign secret db.nextId now) { id := db.nextId, name := n, email := e })) := by
  exact ⟨fun u h hg => signup_found_google_eq secret now db n e pw u h hg,
    fun u h hp => signup_found_password_eq secret now db n e pw u h hp,
    fun h => signup_not_found_eq secret now db n e pw h⟩

theorem signup_case_analysis_witness :
    signup "s" 0 dbW "N" "b@x" "zz" = (dbW, .badRequest googleConflictSignupMsg) ∧
    signup "s" 0 dbW "N" "a@x" "zz" = (dbW, .badRequest duplicateEmailMsg) ∧
    signup "s" 0 emptyStore "C" "c@x" "zz" =
      ({ users := [newPasswordUser emptyStore "C" "c@x" "zz"], nextId := 1 },
       .ok (jwtSign "s" 0 0) { id := 0, name := "C", email := "c@x" }) :=
  ⟨(signup_case_analysis "s" 0 dbW "N" "b@x" "zz").1 userB rfl rfl,
   (signup_case_analysis "s" 0 dbW "N" "a@x" "zz").2.1 userA rfl rfl,
   (signup_case_analysis "s" 0 emptyStore "C" "c@x" "zz").2.2 rfl⟩

/-- C5: the strategy callback on an email whose stored record is
password-method returns the method conflict as a data value (a result with no
user and a message, not the error branch), issues no token, and leaves the
store completely unchanged. -/
theorem reconcile_password_conflict (secret : String) (now : Nat) (db : Store)
    (eid e dn : String) (u : User)
    (h : findByEmail db e = some u) (hp : u.authMethod = .password) :
    reconcile secret now db eid e dn = (db, .conflict passwordConflictReconcileMsg) := by
  simp [reconcile, h, hp]

theorem reconcile_password_conflict_witness :
    reconcile "s" 0 dbW "gid" "a@x" "N" = (dbW, .conflict passwordConflictReconcileMsg) :=
  reconcile_password_conflict "s" 0 dbW "gid" "a@x" "N" userA rfl rfl

/-- C10: for a stored google-method user with a non-empty linked external id,
the strategy callback with the same email but any asserted external id —
matching or not — succeeds, issues a token for that user, and leaves the
store (in particular the stored external id) unchanged: the asserted id is
never compared against the stored one. -/
theorem reconcile_ignores_asserted_id (secret : String) (now : Nat) (db : Store)
    (eid2 e dn : String) (u : User) (g : String)
    (h : findByEmail db e = some u) (hg : u.authMethod = .google)
    (hid : u.googleId = some g) (hne : g ≠ "") :
    reconcile secret now db eid2 e dn = (db, .ok u (jwtSign secret u.id now)) := by
  simp [reconcile, h, hg, hid, isFalsyStr_some_false g hne]

theorem reconcile_ignores_asserted_id_witness :
    reconcile "s" 0 dbW "DIFFERENT" "b@x" "N" = (dbW, .ok userB (jwtSign "s" 1 0)) :=
  reconcile_ignores_asserted_id "s" 0 dbW "DIFFERENT" "b@x" "N" userB "g1" rfl rfl rfl
    (by decide)

/-- C3: a token issued at `now` expires exactly one hour later; verification
returns `malformed` on an unparseable presentation and on any signature
mismatch — in particular on a token whose subject claim was tampered with
after signing — returns `expired` when the current time is past `expiresAt`,
and otherwise returns the subject id. -/
theorem token_service_contract (secret : String) (sub now vnow : Nat) (t : TokenData) :
    ((jwtSign secret sub now).expiresAt = (jwtSign secret sub now).issuedAt + hourSeconds) ∧
    (jwtVerify secret vnow none = .malformed) ∧
    (t.sig ≠ jwtSig secret t.subjectId t.issuedAt t.expiresAt →
      jwtVerify secret vnow (some t) = .malformed) ∧
    (t.sig = jwtSig secret t.subjectId t.issuedAt t.expiresAt → t.expiresAt < vnow →
      jwtVerify secret vnow (some t) = .expired) ∧
    (t.sig = jwtSig secret t.subjectId t.issuedAt t.expiresAt → ¬ t.expiresAt < vnow →
      jwtVerify secret vnow (some t) = .ok t.subjectId) ∧
    (∀ sub2, sub2 ≠ sub →
      jwtVerify secret vnow (some { jwtSign secret sub now with subjectId := sub2 }) =
        .malformed) := by
  refine ⟨rfl, rfl, ?_, ?_, ?_, ?_⟩
  · intro hs
    simp [jwtVerify, hs]
  · intro hs hexp
    simp [jwtVerify, hs, hexp]
  · intro hs hexp
    simp [jwtVerify, hs, hexp]
  · intro sub2 hne
    simp [jwtVerify, jwtSign, jwtSig, JwtSig.mk.injEq, Ne.symm hne]

theorem token_service_contract_witness :
    jwtVerify "k" 9999 (some (jwtSign "k" 7 0)) = .expired ∧
    jwtVerify "k" 100 (some (jwtSign "k" 7 0)) = .ok 7 ∧
    jwtVerify "k" 100 (some { jwtSign "k" 7 0 with subjectId := 8 }) = .malformed :=
  ⟨(token_service_contract "k" 7 0 9999 (jwtSign "k" 7 0)).2.2.2.1 rfl (by decide),
   (token_service_contract "k" 7 0 100 (jwtSign "k" 7 0)).2.2.2.2.1 rfl (by decide),
   (token_service_contract "k" 7 0 100 (jwtSign "k" 7 0)).2.2.2.2.2 8 (by decide)⟩

/-- C4: login with a nonexistent email and login with a wrong password on an
existing password-method user produce literally the same failure value — a
400 with the `Invalid credentials` message — so the two runs are
indistinguishable to the caller. -/
theorem login_enumeration_safe (secret : String) (now : Nat) (db : Store)
    (e1 pw1 e2 pw2 stored : String) (u : User)
    (h1 : findByEmail db e1 = none)
    (h2 : findByEmail db e2 = some u) (hp : u.authMethod = .password)
    (hpw : u.password = some stored) (hc : bcryptCompare pw2 stored = false) :
    login secret now db e1 pw1 = .badRequest invalidCredentialsMsg ∧
    login secret now db e2 pw2 = .badRequest invalidCredentialsMsg ∧
    login secret now db e1 pw1 = login secret now db e2 pw2 := by
  have hA : login secret now db e1 pw1 = .badRequest invalidCredentialsMsg := by
    simp [login, h1]
  have hB : login secret now db e2 pw2 = .badRequest invalidCredentialsMsg := by
    simp [login, h2, hp, hpw, hc]
  exact ⟨hA, hB, hA.trans hB.symm⟩

theorem login_enumeration_safe_witness :
    login "s" 0 dbW "nobody@x" "pw" = .badRequest invalidCredentialsMsg ∧
    login "s" 0 dbW "a@x" "wrong" = .badRequest invalidCredentialsMsg ∧
    login "s" 0 dbW "nobody@x" "pw" = login "s" 0 dbW "a@x" "wrong" :=
  login_enumeration_safe "s" 0 dbW "nobody@x" "pw" "a@x" "wrong"
    (bcryptHash "pw") userA rfl rfl rfl rfl (by decide)

/-- C9: no success response carries the stored password hash: a signup
success's user view is exactly `{id, name, email}`, a login success's user
view is exactly `{id, name, email}` of the found record, and the profile
lookup returns the record with the password field stripped — a view that is
invariant under any change of the stored password. -/
theorem no_password_hash_leak (secret : String) (now : Nat) (db : Store)
    (n e pw : String) (i : Nat) (u : User) (p : Option String) :
    (∀ st tok v, signup secret now db n e pw = (st, .ok tok v) →
      v = { id := db.nextId, name := n, email := e }) ∧
    (∀ tok v, login secret now db e pw = .ok tok v →
      ∃ u2, findByEmail db e = some u2 ∧ v = { id := u2.id, name := u2.name, email := e }) ∧
    (findById db i = some u → profile db i = .ok (stripPassword u)) ∧
    (stripPassword { u with password := p } = stripPassword u) := by
  refine ⟨?_, ?_, ?_, rfl⟩
  · intro st tok v heq
    cases hf : findByEmail db e with
    | some u2 =>
      cases hm : u2.authMethod with
      | google =>
        rw [signup_found_google_eq secret now db n e pw u2 hf hm] at heq
        simp at heq
      | password =>
        rw [signup_found_password_eq secret now db n e pw u2 hf hm] at heq
        simp at heq
    | none =>
      rw [signup_not_found_eq secret now db n e pw hf] at heq
      simp [Prod.ext_iff, AuthResult.ok.injEq] at heq
      exact heq.2.2.symm
  · intro tok v heq
    revert heq
    unfold login
    cases hf : findByEmail db e with
    | none => intro heq; simp at heq
    | some u2 =>
      by_cases hg : u2.authMethod = .google
      · intro heq; simp [hg] at heq
      · cases hpw : u2.password with
        | none => intro heq; simp [hg, hpw] at heq
        | some stored =>
          by_cases hc : bcryptCompare pw stored
          · intro heq
            simp [hg, hpw, hc] at heq
            exact ⟨u2, rfl, heq.2.symm⟩
          · intro heq; simp [hg, hpw, hc] at heq
  · intro hf
    simp [profile, hf]

theorem no_password_hash_leak_witness :
    stripPassword { userA with password := some "OTHER" } = stripPassword userA ∧
    profile dbW 0 = .ok (stripPassword userA) ∧
    (signup "s" 0 emptyStore "D" "d@x" "p1").2 =
      .ok (jwtSign "s" 0 0) { id := 0, name := "D", email := "d@x" } :=
  ⟨(no_password_hash_leak "s" 0 dbW "D" "d@x" "p1" 0 userA (some "OTHER")).2.2.2,
   (no_password_hash_leak "s" 0 dbW "D" "d@x" "p1" 0 userA (some "OTHER")).2.2.1 rfl,
   by decide⟩

/-- C6: the strategy callback on an unseen email appends a fresh google-method
record carrying the asserted external id; any further callback for the same
email — in particular one with the same external id — is idempotent: the
store is returned unchanged (no second record, the linked id never
overwritten) and the same user id is in the issued token; and signup never
removes or rewrites an existing record. -/
theorem reconcile_create_idempotent (secret : String) (now vnow : Nat) (db : Store)
    (eid e dn : String) (h : findByEmail db e = none) (hne : eid ≠ "") :
    reconcile secret now db eid e dn =
      ({ users := db.users ++ [newGoogleUser db eid e dn], nextId := db.nextId + 1 },
       .ok (newGoogleUser db eid e dn) (jwtSign secret db.nextId now)) ∧
    (∀ eid2 dn2, reconcile secret vnow
        { users := db.users ++ [newGoogleUser db eid e dn], nextId := db.nextId + 1 }
        eid2 e dn2 =
      ({ users := db.users ++ [newGoogleUser db eid e dn], nextId := db.nextId + 1 },
       .ok (newGoogleUser db eid e dn) (jwtSign secret db.nextId vnow))) ∧
    (∀ n2 e2 pw2 v, v ∈ db.users ++ [newGoogleUser db eid e dn] →
      v ∈ ((signup secret vnow
        { users := db.users ++ [newGoogleUser db eid e dn], nextId := db.nextId + 1 }
        n2 e2 pw2).1).users) := by
  have hfind : findByEmail
      { users := db.users ++ [newGoogleUser db eid e dn], nextId := db.nextId + 1 } e =
      some (newGoogleUser db eid e dn) := by
    simp only [findByEmail] at h ⊢
    simp [List.find?_append, h, newGoogleUser]
  refine ⟨?_, ?_, ?_⟩
  · simp [reconcile, h, saveNew, newGoogleUser, findByEmail_none_any_false db e h]
  · intro eid2 dn2
    simp only [reconcile]
    rw [hfind]
    simp [newGoogleUser, isFalsyStr, hne]
  · intro n2 e2 pw2 v hv
    cases hf : findByEmail
        { users := db.users ++ [newGoogleUser db eid e dn], nextId := db.nextId + 1 } e2 with
    | some u2 =>
      cases hm : u2.authMethod with
      | google =>
        rw [signup_found_google_eq _ _ _ _ _ _ _ hf hm]
        exact hv
      | password =>
        rw [signup_found_password_eq _ _ _ _ _ _ _ hf hm]
        exact hv
    | none =>
      rw [signup_not_found_eq _ _ _ _ _ _ hf]
      exact List.mem_append_left _ hv

theorem reconcile_create_idempotent_witness :
    reconcile "s" 0 emptyStore "g9" "c@x" "C" =
      ({ users := [newGoogleUser emptyStore "g9" "c@x" "C"], nextId := 1 },
       .ok (newGoogleUser emptyStore "g9" "c@x" "C") (jwtSign "s" 0 0)) ∧
    reconcile "s" 5 { users := [newGoogleUser emptyStore "g9" "c@x" "C"], nextId := 1 }
        "g9" "c@x" "C" =
      ({ users := [newGoogleUser emptyStore "g9" "c@x" "C"], nextId := 1 },
       .ok (newGoogleUser emptyStore "g9" "c@x" "C") (jwtSign "s" 0 5)) ∧
    newGoogleUser emptyStore "g9" "c@x" "C" ∈
      ((signup "s" 5 { users := [newGoogleUser emptyStore "g9" "c@x" "C"], nextId := 1 }
        "Z" "z@x" "pw").1).users :=
  ⟨(reconcile_create_idempotent "s" 0 5 emptyStore "g9" "c@x" "C" rfl (by decide)).1,
   (reconcile_create_idempotent "s" 0 5 emptyStore "g9" "c@x" "C" rfl (by decide)).2.1
     "g9" "C",
   (reconcile_create_idempotent "s" 0 5 emptyStore "g9" "c@x" "C" rfl (by decide)).2.2
     "Z" "z@x" "pw" (newGoogleUser emptyStore "g9" "c@x" "C") (by decide)⟩

/-- C7 counterexample: in the losing-writer interleaving — lookup sees an
empty store, the concurrent winner has already committed the email — the
store's duplicate-key signal is surfaced by signup as the 500 server fault,
not as the duplicate-email (or method-conflict) 400. -/
theorem signup_race_counterexample :
    (signupInterleaved "s" 0 emptyStore dbW "A" "a@x" "pw").2 =
      .serverError serverErrorMsg ∧
    (signupInterleaved "s" 0 emptyStore dbW "A" "a@x" "pw").2 ≠
      .badRequest duplicateEmailMsg ∧
    (signupInterleaved "s" 0 emptyStore dbW "A" "a@x" "pw").2 ≠
      .badRequest googleConflictSignupMsg := by
  refine ⟨rfl, ?_, ?_⟩ <;> decide

/-- C7 (amended): when the store's create raises its uniqueness-violation
signal during signup, the catch-all surfaces it as the generic 500
`Server error` (a `ServerFault`), never as `DuplicateEmail`. -/
theorem signup_race_serverfault (secret : String) (now : Nat)
    (dbLookup dbSave : Store) (n e pw : String)
    (h1 : findByEmail dbLookup e = none)
    (h2 : dbSave.users.any (fun v => v.email == e) = true) :
    signupInterleaved secret now dbLookup dbSave n e pw =
      (dbSave, .serverError serverErrorMsg) := by
  simp [signupInterleaved, h1, saveNew, newPasswordUser, h2]

theorem signup_race_serverfault_witness :
    signupInterleaved "s" 0 emptyStore dbW "A" "a@x" "pw" =
      (dbW, .serverError serverErrorMsg) :=
  signup_race_serverfault "s" 0 emptyStore dbW "A" "a@x" "pw" rfl (by decide)

/-- C8 counterexample: a signup whose name, email and password are all empty
(hence syntactically invalid) is not rejected: on an empty store it succeeds,
creates a user record and issues a token. -/
theorem signup_no_validation_counterexample :
    (signup "s" 0 emptyStore "" "" "").2 =
      .ok (jwtSign "s" 0 0) { id := 0, name := "", email := "" } ∧
    (signup "s" 0 emptyStore "" "" "").1.users =
      [newPasswordUser emptyStore "" "" ""] := by
  refine ⟨?_, ?_⟩ <;> decide

/-- C8 (amended): signup performs no syntactic validation of name, email or
password: whatever the field contents — empty or malformed included — a
request for an unseen email succeeds, creating a password-method record and
issuing a token; no `InvalidInput`-class failure exists on this path. -/
theorem signup_accepts_any_input (secret : String) (now : Nat) (db : Store)
    (n e pw : String) (h : findByEmail db e = none) :
    signup secret now db n e pw =
      ({ users := db.users ++ [newPasswordUser db n e pw], nextId := db.nextId + 1 },
       .ok (jwtSign secret db.nextId now) { id := db.nextId, name := n, email := e }) :=
  signup_not_found_eq secret now db n e pw h

theorem signup_accepts_any_input_witness :
    signup "s" 0 emptyStore "" "" "" =
      ({ users := [newPasswordUser emptyStore "" "" ""], nextId := 1 },
       .ok (jwtSign "s" 0 0) { id := 0, name := "", email := "" }) :=
  signup_accepts_any_input "s" 0 emptyStore "" "" "" rfl

end Oauth
